import Mathlib

/-!
Shallow embedding of the fb_messenger storage core:
  - src/scripts/setup_db.py        (table layout: partition and clustering keys)
  - src/app/controllers/message_controller.py
  - src/app/controllers/conversation_controller.py

Modelling conventions, stated once:

* UUIDs (`uuid4()`) are drawn from a fresh-identifier counter in the store;
  timestamps (`datetime.utcnow()`) are drawn from a strictly increasing clock
  counter.  The spec (section 5) assumes a monotonic, sufficiently fine-grained
  clock, which this realises.
* Each Cassandra table is a list of rows; an INSERT is the Cassandra upsert
  (it replaces any row with the same primary key).  Reads of a partition are
  returned in clustering order, realised here by `List.insertionSort` with the
  clustering comparator declared in setup_db.py.
* Statements the server rejects at validation time raise `InvalidRequest` in
  the driver before touching any row; each controller's generic `except`
  converts that into `HTTPException(500)`.  Three statements of this code are
  in that class:
  - the existence check `SELECT conversation_id FROM user_conversations WHERE
    user_id = ? AND participant_ids CONTAINS ? LIMIT 1`: `participant_ids` is
    a regular (non-key) SET column, setup_db.py creates no secondary index on
    it, and the statement carries no ALLOW FILTERING, so Cassandra refuses to
    run it.  It is the first statement of `send_message`, which therefore
    always fails with the keyspace untouched;
  - the trailing `UPDATE user_conversations SET last_message_timestamp = ?
    WHERE user_id IN (?, ?) AND conversation_id = ?`: it assigns a primary-key
    (clustering) column and its WHERE clause omits that clustering column.  It
    is unreachable (the lookup above already raised), but the branch is kept
    in the model as in the source;
  - the readers' `LIMIT %s` with a bound limit of 0: CQL requires LIMIT to be
    strictly positive, so all three paginated readers fail with the generic
    500 when called with limit = 0.  (The `LIMIT 1` literals of the last-
    message lookups and of `get_conversation` are fine.)
* The Cassandra Python driver returns a SET<UUID> column as a sorted set, so
  `list(row.participant_ids)` and iteration over it are modelled by
  `participantsAsc`, the ascending enumeration of the set.
-/

/-- User identifiers (UUID-class opaque values, modelled as naturals). -/
abbrev UserId := Nat

/-- Conversation identifiers. -/
abbrev ConvId := Nat

/-- Message identifiers. -/
abbrev MsgId := Nat

/-- Timestamps (`datetime.utcnow()` values, modelled as clock readings). -/
abbrev Timestamp := Nat

/-- Row of the `conversations` table: `PRIMARY KEY (conversation_id)`. -/
structure ConversationRow where
  conversation_id : ConvId
  participant_ids : Finset UserId
  created_at : Timestamp
deriving DecidableEq

/-- Row of the `user_conversations` table:
`PRIMARY KEY (user_id, last_message_timestamp, conversation_id)` with
`CLUSTERING ORDER BY (last_message_timestamp DESC, conversation_id ASC)`. -/
structure UserConversationRow where
  user_id : UserId
  last_message_timestamp : Timestamp
  conversation_id : ConvId
  participant_ids : Finset UserId
deriving DecidableEq

/-- Row of the `messages_by_conversation` table:
`PRIMARY KEY (conversation_id, created_at, message_id)` with
`CLUSTERING ORDER BY (created_at DESC, message_id DESC)`. -/
structure MessageRow where
  conversation_id : ConvId
  created_at : Timestamp
  message_id : MsgId
  sender_id : UserId
  message_text : String
deriving DecidableEq

/-- The whole Cassandra keyspace plus the identifier and clock supplies. -/
structure Store where
  conversations : List ConversationRow
  user_conversations : List UserConversationRow
  messages : List MessageRow
  clock : Nat
  fresh : Nat
deriving DecidableEq

/-- The store of a freshly initialised keyspace (setup_db.py creates empty tables). -/
def emptyStore : Store := ⟨[], [], [], 0, 0⟩

/-- One `datetime.utcnow()` call: returns the current reading, advances the clock. -/
def tick (st : Store) : Timestamp × Store :=
  (st.clock, { st with clock := st.clock + 1 })

/-- One `uuid4()` call: returns a fresh identifier. -/
def freshUuid (st : Store) : Nat × Store :=
  (st.fresh, { st with fresh := st.fresh + 1 })

/-- Cassandra INSERT into `conversations` (upsert keyed by `conversation_id`). -/
def upsertConversationRow (st : Store) (row : ConversationRow) : Store :=
  { st with conversations :=
      row :: st.conversations.filter (fun q => !(q.conversation_id == row.conversation_id)) }

/-- Cassandra INSERT into `user_conversations` (upsert keyed by the full primary key). -/
def upsertUserConversationRow (st : Store) (row : UserConversationRow) : Store :=
  { st with user_conversations :=
      row :: st.user_conversations.filter (fun q =>
        !(q.user_id == row.user_id && q.last_message_timestamp == row.last_message_timestamp &&
          q.conversation_id == row.conversation_id)) }

/-- Cassandra INSERT into `messages_by_conversation` (upsert keyed by the full primary key). -/
def upsertMessageRow (st : Store) (row : MessageRow) : Store :=
  { st with messages :=
      row :: st.messages.filter (fun q =>
        !(q.conversation_id == row.conversation_id && q.created_at == row.created_at &&
          q.message_id == row.message_id)) }

/-- Clustering order of `messages_by_conversation`: `created_at DESC, message_id DESC`.
`msgRowLe a b` holds when `a` may appear at or before `b` in a partition scan. -/
def msgRowLe (a b : MessageRow) : Prop :=
  b.created_at < a.created_at ∨
    (b.created_at = a.created_at ∧ b.message_id ≤ a.message_id)

instance : DecidableRel msgRowLe := fun a b =>
  inferInstanceAs (Decidable (b.created_at < a.created_at ∨
    (b.created_at = a.created_at ∧ b.message_id ≤ a.message_id)))

instance : IsTotal MessageRow msgRowLe :=
  ⟨fun a b => by
    simp only [msgRowLe]
    rcases Nat.lt_trichotomy b.created_at a.created_at with h | h | h
    · exact Or.inl (Or.inl h)
    · rcases Nat.le_total b.message_id a.message_id with h2 | h2
      · exact Or.inl (Or.inr ⟨h, h2⟩)
      · exact Or.inr (Or.inr ⟨h.symm, h2⟩)
    · exact Or.inr (Or.inl h)⟩

instance : IsTrans MessageRow msgRowLe :=
  ⟨fun a b c hab hbc => by
    simp only [msgRowLe] at *
    rcases hab with h1 | ⟨h1, h1i⟩ <;> rcases hbc with h2 | ⟨h2, h2i⟩
    · exact Or.inl (Nat.lt_trans h2 h1)
    · exact Or.inl (h2 ▸ h1)
    · exact Or.inl (h1 ▸ h2)
    · exact Or.inr ⟨h2.trans h1, Nat.le_trans h2i h1i⟩⟩

/-- Clustering order of `user_conversations`:
`last_message_timestamp DESC, conversation_id ASC`. -/
def userConvRowLe (a b : UserConversationRow) : Prop :=
  b.last_message_timestamp < a.last_message_timestamp ∨
    (b.last_message_timestamp = a.last_message_timestamp ∧ a.conversation_id ≤ b.conversation_id)

instance : DecidableRel userConvRowLe := fun a b =>
  inferInstanceAs (Decidable (b.last_message_timestamp < a.last_message_timestamp ∨
    (b.last_message_timestamp = a.last_message_timestamp ∧ a.conversation_id ≤ b.conversation_id)))

instance : IsTotal UserConversationRow userConvRowLe :=
  ⟨fun a b => by
    simp only [userConvRowLe]
    rcases Nat.lt_trichotomy b.last_message_timestamp a.last_message_timestamp with h | h | h
    · exact Or.inl (Or.inl h)
    · rcases Nat.le_total a.conversation_id b.conversation_id with h2 | h2
      · exact Or.inl (Or.inr ⟨h, h2⟩)
      · exact Or.inr (Or.inr ⟨h.symm, h2⟩)
    · exact Or.inr (Or.inl h)⟩

instance : IsTrans UserConversationRow userConvRowLe :=
  ⟨fun a b c hab hbc => by
    simp only [userConvRowLe] at *
    rcases hab with h1 | ⟨h1, h1i⟩ <;> rcases hbc with h2 | ⟨h2, h2i⟩
    · exact Or.inl (Nat.lt_trans h2 h1)
    · exact Or.inl (h2 ▸ h1)
    · exact Or.inl (h1 ▸ h2)
    · exact Or.inr ⟨h2.trans h1, Nat.le_trans h1i h2i⟩⟩

/-- The partition of `messages_by_conversation` for one conversation, in the
clustering order a SELECT on that partition returns. -/
def messagesPartition (st : Store) (c : ConvId) : List MessageRow :=
  List.insertionSort msgRowLe (st.messages.filter (fun r => r.conversation_id == c))

/-- The partition of `user_conversations` for one user, in clustering order. -/
def userPartition (st : Store) (u : UserId) : List UserConversationRow :=
  List.insertionSort userConvRowLe (st.user_conversations.filter (fun r => r.user_id == u))

/-- Errors the Cassandra driver raises for statements the server rejects at
validation time, before any row is read or written. -/
inductive CqlError where
  | invalidRequest : CqlError
deriving DecidableEq

/-- Outcomes raised by the controllers: `notFound` is `HTTPException(404)`,
`internalError` is the generic `HTTPException(500)` every other exception is
converted into.  `invalidInput` is modelled from the spec: the section-7 error
taxonomy names an invalid-input outcome (HTTP 400 class) for sender equal to
receiver, which no controller in the source ever raises. -/
inductive ApiError where
  | invalidInput : ApiError
  | notFound : ApiError
  | internalError : ApiError
deriving DecidableEq

deriving instance DecidableEq for Except

/-- Modelled from the spec: the request body of `send_message`
(`app.schemas.message.MessageCreate` is not under src/; its fields are the ones
the controllers read and section 6 of the spec lists). -/
structure MessageCreate where
  content : String
  sender_id : UserId
  receiver_id : UserId
deriving DecidableEq

/-- Modelled from the spec: `app.schemas.message.MessageResponse`, fields as
constructed by the controllers and listed in section 6 of the spec
(`receiver_id` is optional: the readers fill it with `None`). -/
structure MessageResponse where
  id : MsgId
  content : String
  sender_id : UserId
  receiver_id : Option UserId
  created_at : Timestamp
  conversation_id : ConvId
deriving DecidableEq

/-- Modelled from the spec: `app.schemas.message.PaginatedMessageResponse`. -/
structure PaginatedMessageResponse where
  total : Nat
  page : Nat
  limit : Nat
  data : List MessageResponse
deriving DecidableEq

/-- Modelled from the spec: `app.schemas.conversation.ConversationResponse`. -/
structure ConversationResponse where
  id : ConvId
  user1_id : UserId
  user2_id : UserId
  last_message_at : Timestamp
  last_message_content : Option String
deriving DecidableEq

/-- Modelled from the spec: `app.schemas.conversation.PaginatedConversationResponse`. -/
structure PaginatedConversationResponse where
  total : Nat
  page : Nat
  limit : Nat
  data : List ConversationResponse
deriving DecidableEq

/-- The existence check of `send_message`:
`SELECT conversation_id FROM user_conversations WHERE user_id = sender
AND participant_ids CONTAINS receiver LIMIT 1`.  `participant_ids` is a
regular (non-key) column, setup_db.py creates no secondary index on it, and
the statement has no ALLOW FILTERING, so Cassandra rejects it with
InvalidRequest at validation time: the lookup raises before evaluating any
row, for every store and every pair of users. -/
def lookupConversation (_st : Store) (_sender _receiver : UserId) :
    Except CqlError (Option ConvId) :=
  Except.error CqlError.invalidRequest

/-- The lookup-or-create block of `MessageController.send_message`
(message_controller.py lines 36-67), the Conversation Resolver of spec
section 4.2.  The create branch (fresh conversation id, a `conversations` row
with its own `utcnow()` reading, then one `user_conversations` row per
participant sharing a second reading) is kept as in the source, but it is dead
code: the guarding lookup always raises, so the resolver never returns a
conversation id and never writes. -/
def resolve_or_create (st : Store) (sender receiver : UserId) :
    Except CqlError (ConvId × Store) :=
  match lookupConversation st sender receiver with
  | Except.error e => Except.error e
  | Except.ok (some c) => Except.ok (c, st)
  | Except.ok none =>
    let u := freshUuid st
    let parts : Finset UserId := {sender, receiver}
    let t1 := tick u.2
    let st1 := upsertConversationRow t1.2 ⟨u.1, parts, t1.1⟩
    let t2 := tick st1
    let st2 := upsertUserConversationRow t2.2 ⟨sender, t2.1, u.1, parts⟩
    let st3 := upsertUserConversationRow st2 ⟨receiver, t2.1, u.1, parts⟩
    Except.ok (u.1, st3)

/-- `MessageController.send_message`.  The source draws `uuid4()` for the
message id, then runs the existence-check SELECT — which Cassandra rejects, so
the generic `except` returns `HTTPException(500)` with the keyspace untouched
(the uuid draw never reaches storage).  The remainder of the body — the third
`utcnow()` reading, the message INSERT and the trailing
`UPDATE user_conversations SET last_message_timestamp` (itself invalid: it
assigns a primary-key column and omits it from WHERE) — is kept as in the
source but is unreachable. -/
def send_message (st : Store) (m : MessageCreate) : Store × Except ApiError MessageResponse :=
  let u := freshUuid st
  match resolve_or_create u.2 m.sender_id m.receiver_id with
  | Except.error _ => (st, Except.error ApiError.internalError)
  | Except.ok rc =>
    let t := tick rc.2
    let st4 := upsertMessageRow t.2 ⟨rc.1, t.1, u.1, m.sender_id, m.content⟩
    (st4, Except.error ApiError.internalError)

/-- Projection of a stored message row to the response shape used by both
message readers (`receiver_id` is not stored and is set to `None`). -/
def msgRowToResponse (r : MessageRow) : MessageResponse :=
  ⟨r.message_id, r.message_text, r.sender_id, none, r.created_at, r.conversation_id⟩

/-- `MessageController.get_conversation_messages`: COUNT of the partition
(no LIMIT, always runs), then the first `limit` rows of the partition in
clustering order.  The source computes `offset = (page - 1) * limit` but never
passes it to the query.  With limit = 0 the interpolated `LIMIT 0` is rejected
by Cassandra (LIMIT must be strictly positive) and the call returns the
generic 500. -/
def get_conversation_messages (st : Store) (c : ConvId) (page limit : Nat) :
    Except ApiError PaginatedMessageResponse :=
  let total := (st.messages.filter (fun r => r.conversation_id == c)).length
  let _offset := (page - 1) * limit
  if limit = 0 then Except.error ApiError.internalError
  else Except.ok ⟨total, page, limit,
    ((messagesPartition st c).take limit).map msgRowToResponse⟩

/-- `MessageController.get_messages_before_timestamp`: as above with the extra
`created_at < before_timestamp` restriction on both the COUNT and the scan,
and the same rejected `LIMIT 0` path. -/
def get_messages_before_timestamp (st : Store) (c : ConvId) (before : Timestamp)
    (page limit : Nat) : Except ApiError PaginatedMessageResponse :=
  let total := (st.messages.filter (fun r =>
    r.conversation_id == c && decide (r.created_at < before))).length
  let _offset := (page - 1) * limit
  if limit = 0 then Except.error ApiError.internalError
  else Except.ok ⟨total, page, limit,
    ((List.insertionSort msgRowLe (st.messages.filter (fun r =>
      r.conversation_id == c && decide (r.created_at < before)))).take limit).map
      msgRowToResponse⟩

/-- Ascending enumeration of a participant set, as the Cassandra Python driver
hands a SET<UUID> column to the controllers (a sorted set).  Defined by
insertion sort on the underlying multiset so that it evaluates by kernel
reduction on concrete sets. -/
def participantsAsc (s : Finset UserId) : List UserId :=
  Quot.liftOn s.val (fun l => List.insertionSort (· ≤ ·) l)
    (fun l1 l2 h => List.eq_of_perm_of_sorted
      ((List.perm_insertionSort _ l1).trans ((Quotient.exact (Quot.sound h)).trans
        (List.perm_insertionSort _ l2).symm))
      (List.sorted_insertionSort _ l1) (List.sorted_insertionSort _ l2))

/-- The per-item enrichment lookup of the conversation list reader:
`SELECT message_text FROM messages_by_conversation WHERE conversation_id = ?
LIMIT 1` — the text of the first row of the partition in clustering order
(the literal `LIMIT 1` is valid CQL). -/
def lastMessageText (st : Store) (c : ConvId) : Option String :=
  ((messagesPartition st c).head?).map (fun r => r.message_text)

/-- The source's `next(uid for uid in row.participant_ids if uid != user_id)`:
the first element of the (driver-sorted) participant set different from the
user, or `none` when the generator is exhausted (StopIteration). -/
def otherParticipant (row : UserConversationRow) (u : UserId) : Option UserId :=
  (participantsAsc row.participant_ids).find? (fun x => !(x == u))

/-- The item-building loop of `ConversationController.get_user_conversations`:
one `ConversationResponse` per index row, `none` when some row has no
participant other than the user (the StopIteration case). -/
def buildConvItems (st : Store) (u : UserId) :
    List UserConversationRow → Option (List ConversationResponse)
  | [] => some []
  | r :: rest =>
    match otherParticipant r u with
    | none => none
    | some other =>
      (buildConvItems st u rest).map
        (fun items =>
          ⟨r.conversation_id, u, other, r.last_message_timestamp,
            lastMessageText st r.conversation_id⟩ :: items)

/-- `ConversationController.get_user_conversations`: COUNT of the user's
partition (always runs), then the first `limit` rows in clustering order, each
enriched with the other participant and the latest message text.  `offset` is
computed but never used.  With limit = 0 the interpolated `LIMIT 0` of the
row SELECT is rejected and the call returns the generic 500; a row whose
participant set holds no user other than `user_id` makes `next()` raise,
which the generic `except` also converts to the 500. -/
def get_user_conversations (st : Store) (u : UserId) (page limit : Nat) :
    Except ApiError PaginatedConversationResponse :=
  let total := (st.user_conversations.filter (fun r => r.user_id == u)).length
  let _offset := (page - 1) * limit
  if limit = 0 then Except.error ApiError.internalError
  else
    match buildConvItems st u ((userPartition st u).take limit) with
    | none => Except.error ApiError.internalError
    | some items => Except.ok ⟨total, page, limit, items⟩

/-- `ConversationController.get_conversation`: point lookup in `conversations`
(valid CQL: the WHERE binds the partition key and the last-message lookup uses
a literal `LIMIT 1`); no row raises `HTTPException(404)`, which the
`except HTTPException: raise` branch passes through unchanged.  With a row,
the source takes `participant_ids[0]` and `participant_ids[1]` of the
driver-sorted set — an IndexError (hence HTTP 500) when the set has fewer
than two elements — and overrides `last_message_at` with the latest message's
timestamp when one exists. -/
def get_conversation (st : Store) (cid : ConvId) : Except ApiError ConversationResponse :=
  match st.conversations.find? (fun q => q.conversation_id == cid) with
  | none => Except.error ApiError.notFound
  | some row =>
    match participantsAsc row.participant_ids with
    | a :: b :: _ =>
      let lm := (messagesPartition st cid).head?
      Except.ok ⟨cid, a, b,
        (lm.map (fun r => r.created_at)).getD row.created_at,
        lm.map (fun r => r.message_text)⟩
    | _ => Except.error ApiError.internalError

/-- A populated store used to instantiate read-path theorems and witnesses:
one two-party conversation (id 5) between users 1 and 2 holding two messages,
with one index row per participant.  Populated directly: the send path of
this code never writes (its first statement is invalid CQL), so any data the
readers can observe was written by other means. -/
def sampleStore : Store :=
  ⟨[⟨5, {1, 2}, 0⟩],
    [⟨1, 3, 5, {1, 2}⟩, ⟨2, 3, 5, {1, 2}⟩],
    [⟨5, 2, 10, 1, "hi"⟩, ⟨5, 3, 11, 2, "yo"⟩],
    4, 12⟩

/-! Helper lemmas about the partitions, the readers and the participant sets. -/

lemma mem_messagesPartition {st : Store} {c : ConvId} {x : MessageRow} :
    x ∈ messagesPartition st c ↔ x ∈ st.messages ∧ x.conversation_id = c := by
  unfold messagesPartition
  rw [List.mem_insertionSort]
  simp [List.mem_filter]

lemma sorted_messagesPartition (st : Store) (c : ConvId) :
    List.Sorted msgRowLe (messagesPartition st c) :=
  List.sorted_insertionSort _ _

lemma mem_participantsAsc {s : Finset UserId} {x : UserId} :
    x ∈ participantsAsc s ↔ x ∈ s := by
  rcases s with ⟨m, hnd⟩
  simp only [participantsAsc, Finset.mem_mk]
  induction m using Quot.inductionOn with
  | h l => simp

lemma length_participantsAsc (s : Finset UserId) :
    (participantsAsc s).length = s.card := by
  rcases s with ⟨m, hnd⟩
  simp only [participantsAsc, Finset.card_mk]
  induction m using Quot.inductionOn with
  | h l => simp [(List.perm_insertionSort (fun x1 x2 => x1 ≤ x2) l).length_eq]

lemma nodup_participantsAsc (s : Finset UserId) :
    (participantsAsc s).Nodup := by
  rcases s with ⟨m, hnd⟩
  simp only [participantsAsc]
  induction m using Quot.inductionOn with
  | h l =>
    exact ((List.perm_insertionSort _ l).nodup_iff).mpr hnd

lemma buildConvItems_proj (st : Store) (u : UserId) :
    ∀ rows : List UserConversationRow,
      (∀ row ∈ rows, ∃ x ∈ row.participant_ids, x ≠ u) →
      ∃ items, buildConvItems st u rows = some items ∧
        items.map (fun i => (i.id, i.last_message_at)) =
          rows.map (fun r => (r.conversation_id, r.last_message_timestamp))
  | [], _ => ⟨[], rfl, rfl⟩
  | r :: rest, h => by
    rcases h r (List.mem_cons_self _ _) with ⟨x, hx, hxne⟩
    have hop : ¬ otherParticipant r u = none := by
      intro hnone
      unfold otherParticipant at hnone
      have := List.find?_eq_none.mp hnone x (mem_participantsAsc.mpr hx)
      simp [hxne] at this
    rcases ho : otherParticipant r u with _ | o
    · exact absurd ho hop
    · rcases buildConvItems_proj st u rest
        (fun w hw => h w (List.mem_cons_of_mem _ hw)) with ⟨items, hitems, hproj⟩
      refine ⟨⟨r.conversation_id, u, o, r.last_message_timestamp,
          lastMessageText st r.conversation_id⟩ :: items, ?_, ?_⟩
      · simp [buildConvItems, ho, hitems]
      · simp [hproj]

/-- Order relation of the returned message items: most recent first,
ties broken by message id descending. -/
def msgRespLe (a b : MessageResponse) : Prop :=
  b.created_at < a.created_at ∨ (b.created_at = a.created_at ∧ b.id ≤ a.id)

lemma send_message_store_eq (st : Store) (m : MessageCreate) :
    send_message st m = (st, Except.error ApiError.internalError) := rfl

lemma get_conversation_messages_pos {st : Store} {c : ConvId} {page limit : Nat}
    (hlim : limit ≠ 0) :
    get_conversation_messages st c page limit =
      Except.ok ⟨(st.messages.filter (fun r => r.conversation_id == c)).length, page, limit,
        ((messagesPartition st c).take limit).map msgRowToResponse⟩ := by
  unfold get_conversation_messages
  simp [hlim]

lemma get_messages_before_timestamp_pos {st : Store} {c : ConvId} {before : Timestamp}
    {page limit : Nat} (hlim : limit ≠ 0) :
    get_messages_before_timestamp st c before page limit =
      Except.ok ⟨(st.messages.filter (fun r =>
          r.conversation_id == c && decide (r.created_at < before))).length, page, limit,
        ((List.insertionSort msgRowLe (st.messages.filter (fun r =>
          r.conversation_id == c && decide (r.created_at < before)))).take limit).map
          msgRowToResponse⟩ := by
  unfold get_messages_before_timestamp
  simp [hlim]

lemma get_user_conversations_pos {st : Store} {u : UserId} {page limit : Nat}
    (hlim : limit ≠ 0) :
    get_user_conversations st u page limit =
      match buildConvItems st u ((userPartition st u).take limit) with
      | none => Except.error ApiError.internalError
      | some items => Except.ok
          ⟨(st.user_conversations.filter (fun r => r.user_id == u)).length,
            page, limit, items⟩ := by
  unfold get_user_conversations
  simp [hlim]

/-! The claims. -/

/-- C1: the claim asserts that the resolver (the lookup-or-create path of
`send_message`), called twice in sequence with the same distinct pair, returns
the same conversation id both times and leaves at most one conversation
between the pair.  Evaluating the code refutes the first part: the guarding
existence-check SELECT is invalid CQL (CONTAINS on a non-indexed regular
column without ALLOW FILTERING), so both calls raise InvalidRequest, no
conversation id is ever returned, and the store — here the empty store,
threaded through a first full `send_message` call — is untouched. -/
theorem C1_resolver_never_returns_id :
    resolve_or_create emptyStore 1 2 = Except.error CqlError.invalidRequest ∧
    resolve_or_create (send_message emptyStore ⟨"hi", 1, 2⟩).1 1 2 =
      Except.error CqlError.invalidRequest ∧
    (send_message emptyStore ⟨"hi", 1, 2⟩).1 = emptyStore ∧
    (send_message emptyStore ⟨"hi", 1, 2⟩).2 = Except.error ApiError.internalError := by
  decide

/-- C2: the claim asserts that appending a message to an existing conversation
replaces (does not duplicate) each participant's `user_conversations` index
row.  Evaluating two successive sends between users 1 and 2 refutes it: each
call aborts at its first statement (the invalid existence-check SELECT), so no
message row is ever inserted and no index row is ever written, replaced or
duplicated — the store stays the empty store and both calls report the
generic 500. -/
theorem C2_append_never_touches_index_rows :
    ((send_message (send_message emptyStore ⟨"hi", 1, 2⟩).1 ⟨"hello", 1, 2⟩).1 = emptyStore) ∧
    ((send_message (send_message emptyStore ⟨"hi", 1, 2⟩).1 ⟨"hello", 1, 2⟩).1.user_conversations
      = []) ∧
    ((send_message (send_message emptyStore ⟨"hi", 1, 2⟩).1 ⟨"hello", 1, 2⟩).1.messages = []) ∧
    ((send_message emptyStore ⟨"hi", 1, 2⟩).2 = Except.error ApiError.internalError) ∧
    ((send_message (send_message emptyStore ⟨"hi", 1, 2⟩).1 ⟨"hello", 1, 2⟩).2
      = Except.error ApiError.internalError) := by
  decide

/-- C3: the claim asserts that one timestamp `t` is generated per append and
shared by the message row, both index rows and the returned `Message`.
Evaluating a send between users 1 and 2 from the empty store refutes it: the
call raises at the existence-check SELECT before any `utcnow()` reading is
drawn or write issued, so no timestamp reaches any table and no `Message` is
returned — the call ends in the generic 500 with every table still empty. -/
theorem C3_no_timestamp_reaches_store :
    ((send_message emptyStore ⟨"hi", 1, 2⟩).1.messages = []) ∧
    ((send_message emptyStore ⟨"hi", 1, 2⟩).1.user_conversations = []) ∧
    ((send_message emptyStore ⟨"hi", 1, 2⟩).1.conversations = []) ∧
    ((send_message emptyStore ⟨"hi", 1, 2⟩).2 = Except.error ApiError.internalError) := by
  decide

/-- C4: the claim asserts that sender = receiver fails with an `InvalidInput`
outcome distinct from the storage failure.  Evaluating the self-send of user 7
refutes the outcome: the code performs no sender-equals-receiver check, and
the call fails with the same generic 500 every send gets (the storage-class
failure of its invalid first statement), not with `invalidInput`.  Nothing is
written — but only because every send fails, not because of validation. -/
theorem C4_self_send_not_invalid_input :
    ((send_message emptyStore ⟨"x", 7, 7⟩).1 = emptyStore) ∧
    ((send_message emptyStore ⟨"x", 7, 7⟩).2 = Except.error ApiError.internalError) ∧
    ((send_message emptyStore ⟨"x", 7, 7⟩).2 ≠ Except.error ApiError.invalidInput) := by
  decide

/-- C5 counterexample: the claim asserts that after `append(c, s, text)` a
subsequent `list_messages(c, ...)` includes a message with that sender and
content.  One send of "hi" from user 1 to user 2 on the empty store refutes
it: the call fails at its invalid first statement leaving the store empty,
and the subsequent read of any conversation — here conversation 1 with the
default limit — returns no items at all. -/
theorem C5_append_not_visible_counterexample :
    ((send_message emptyStore ⟨"hi", 1, 2⟩).2 = Except.error ApiError.internalError) ∧
    ((send_message emptyStore ⟨"hi", 1, 2⟩).1 = emptyStore) ∧
    (get_conversation_messages (send_message emptyStore ⟨"hi", 1, 2⟩).1 1 1 20 =
      Except.ok ⟨0, 1, 20, []⟩) := by
  decide

/-- C5 amended: whenever the message reader succeeds (limit at least 1), its
items are ordered most recent first by created_at descending with message id
descending as tie-break; but no appended message is ever visible, because
`send_message` aborts at its invalid existence-check SELECT and leaves the
store unchanged — a read after an append returns exactly what it returned
before. -/
theorem C5_messages_ordered_append_invisible (st : Store) (m : MessageCreate)
    (c : ConvId) (page limit : Nat) (hlim : 1 ≤ limit) :
    (∃ p, get_conversation_messages st c page limit = Except.ok p ∧
      List.Sorted msgRespLe p.data) ∧
    (send_message st m).1 = st ∧
    get_conversation_messages (send_message st m).1 c page limit =
      get_conversation_messages st c page limit := by
  refine ⟨⟨⟨(st.messages.filter (fun r => r.conversation_id == c)).length, page, limit,
      ((messagesPartition st c).take limit).map msgRowToResponse⟩, ?_, ?_⟩, rfl, rfl⟩
  · exact get_conversation_messages_pos (by omega)
  · have htake : List.Sorted msgRowLe ((messagesPartition st c).take limit) :=
      List.Pairwise.sublist (List.take_sublist _ _) (sorted_messagesPartition st c)
    rw [List.Sorted, List.pairwise_map]
    refine htake.imp (fun {a b} h => ?_)
    simp only [msgRowLe, msgRespLe, msgRowToResponse] at *
    exact h

/-- Witness for C5 amended: the populated sample store, conversation 5,
an attempted send from user 1 to user 2, page 1, limit 20. -/
theorem C5_messages_ordered_append_invisible_witness :
    (∃ p, get_conversation_messages sampleStore 5 1 20 = Except.ok p ∧
      List.Sorted msgRespLe p.data) ∧
    (send_message sampleStore ⟨"hello", 1, 2⟩).1 = sampleStore ∧
    get_conversation_messages (send_message sampleStore ⟨"hello", 1, 2⟩).1 5 1 20 =
      get_conversation_messages sampleStore 5 1 20 :=
  C5_messages_ordered_append_invisible sampleStore ⟨"hello", 1, 2⟩ 5 1 20 (by decide)

/-- C6 counterexample: the claim quantifies over every limit, but at limit = 0
the interpolated `LIMIT 0` is rejected by Cassandra and the call fails with
the generic 500 — no page, hence no total, is returned. -/
theorem C6_limit_zero_counterexample :
    get_messages_before_timestamp emptyStore 1 5 1 0 =
      Except.error ApiError.internalError := by
  decide

/-- C6 amended: for every limit of at least 1, `get_messages_before_timestamp`
succeeds, every returned message has created_at strictly below the cursor,
and the returned total counts exactly the conversation's stored messages with
created_at strictly below the cursor; at limit = 0 the call fails with the
generic 500 instead. -/
theorem C6_before_timestamp_strict (st : Store) (c : ConvId) (t : Timestamp)
    (page limit : Nat) (hlim : 1 ≤ limit) :
    ∃ p, get_messages_before_timestamp st c t page limit = Except.ok p ∧
      (∀ resp ∈ p.data, resp.created_at < t) ∧
      p.total = (st.messages.filter (fun r2 => r2.conversation_id == c)).countP
        (fun r2 => decide (r2.created_at < t)) := by
  refine ⟨⟨(st.messages.filter (fun r2 =>
      r2.conversation_id == c && decide (r2.created_at < t))).length, page, limit,
    ((List.insertionSort msgRowLe (st.messages.filter (fun r2 =>
      r2.conversation_id == c && decide (r2.created_at < t)))).take limit).map
      msgRowToResponse⟩, ?_, ?_, ?_⟩
  · exact get_messages_before_timestamp_pos (by omega)
  · intro resp hresp
    simp only [List.mem_map] at hresp
    rcases hresp with ⟨row, hrow, rfl⟩
    have hrow2 : row ∈ List.insertionSort msgRowLe (st.messages.filter (fun r2 =>
        r2.conversation_id == c && decide (r2.created_at < t))) :=
      List.mem_of_mem_take hrow
    rw [List.mem_insertionSort] at hrow2
    have hpred := (List.mem_filter.mp hrow2).2
    simp only [Bool.and_eq_true, decide_eq_true_eq] at hpred
    simpa [msgRowToResponse] using hpred.2
  · show (st.messages.filter (fun r2 =>
        r2.conversation_id == c && decide (r2.created_at < t))).length = _
    rw [List.countP_eq_length_filter, List.filter_filter]
    congr 1
    refine List.filter_congr (fun a _ => ?_)
    exact Bool.and_comm _ _

/-- Witness for C6 amended: the sample store, conversation 5, cursor at the
second message's timestamp, page 1, limit 20. -/
theorem C6_before_timestamp_strict_witness :
    ∃ p, get_messages_before_timestamp sampleStore 5 3 1 20 = Except.ok p ∧
      (∀ resp ∈ p.data, resp.created_at < 3) ∧
      p.total = (sampleStore.messages.filter (fun r2 => r2.conversation_id == 5)).countP
        (fun r2 => decide (r2.created_at < 3)) :=
  C6_before_timestamp_strict sampleStore 5 3 1 20 (by decide)

/-- C7 counterexample: the claim quantifies over every limit, but at limit = 0
both readers' interpolated `LIMIT 0` is rejected by Cassandra and both calls
fail with the generic 500 instead of returning items. -/
theorem C7_limit_zero_counterexample :
    get_conversation_messages emptyStore 1 1 0 = Except.error ApiError.internalError ∧
    get_user_conversations emptyStore 1 1 0 = Except.error ApiError.internalError := by
  decide

/-- C7 amended: for every limit of at least 1, both paginated readers return
the first `limit` rows of the ordered (for conversations, enriched) partition
for every page value of at least 1: the page number only changes the echoed
`page` field, because the `offset` the source computes is never applied to the
storage query.  At limit = 0 both readers fail with the generic 500.  The
`hother` hypothesis is the data-integrity condition of the spec: each listed
index row holds a participant other than the requesting user (otherwise the
conversation reader raises). -/
theorem C7_page_offset_never_applied (st : Store) (c : ConvId) (u : UserId) (limit : Nat)
    (hlim : 1 ≤ limit)
    (hother : ∀ row ∈ (userPartition st u).take limit, ∃ x ∈ row.participant_ids, x ≠ u) :
    (∀ pg, 1 ≤ pg → get_conversation_messages st c pg limit =
      Except.ok ⟨(st.messages.filter (fun r => r.conversation_id == c)).length, pg, limit,
        ((messagesPartition st c).take limit).map msgRowToResponse⟩) ∧
    (∃ items, (∀ pg, 1 ≤ pg → get_user_conversations st u pg limit =
        Except.ok ⟨(st.user_conversations.filter (fun r => r.user_id == u)).length,
          pg, limit, items⟩) ∧
      items.map (fun i => (i.id, i.last_message_at)) =
        ((userPartition st u).take limit).map
          (fun r => (r.conversation_id, r.last_message_timestamp))) := by
  constructor
  · intro pg _
    exact get_conversation_messages_pos (by omega)
  · rcases buildConvItems_proj st u ((userPartition st u).take limit) hother with
      ⟨items, hitems, hproj⟩
    refine ⟨items, fun pg _ => ?_, hproj⟩
    rw [get_user_conversations_pos (by omega), hitems]

/-- Witness for C7 amended: the sample store, conversation 5, user 1,
limit 20. -/
theorem C7_page_offset_never_applied_witness :
    ((∀ pg, 1 ≤ pg → get_conversation_messages sampleStore 5 pg 20 =
      Except.ok ⟨(sampleStore.messages.filter (fun r => r.conversation_id == 5)).length,
        pg, 20, ((messagesPartition sampleStore 5).take 20).map msgRowToResponse⟩) ∧
    (∃ items, (∀ pg, 1 ≤ pg → get_user_conversations sampleStore 1 pg 20 =
        Except.ok ⟨(sampleStore.user_conversations.filter (fun r => r.user_id == 1)).length,
          pg, 20, items⟩) ∧
      items.map (fun i => (i.id, i.last_message_at)) =
        ((userPartition sampleStore 1).take 20).map
          (fun r => (r.conversation_id, r.last_message_timestamp)))) :=
  C7_page_offset_never_applied sampleStore 5 1 20 (by decide) (by decide)

/-- C8 counterexample: the claim asserts a total is returned independent of
the page and limit arguments, but at limit = 0 the reader's interpolated
`LIMIT 0` is rejected by Cassandra and the call fails with the generic 500 —
no total is returned at all. -/
theorem C8_limit_zero_counterexample :
    get_conversation_messages emptyStore 2 3 0 = Except.error ApiError.internalError := by
  decide

/-- C8 amended: for every limit of at least 1, the total returned by the
message reader equals the full number of message rows stored for the
conversation, independent of the page and of the particular (positive) limit;
at limit = 0 the read itself fails.  `send_message` never changes the store
(it fails at its invalid first statement), so along any trace of this code
the stored row count and the count of successful append calls remain equal —
both zero. -/
theorem C8_total_counts_stored_rows (st : Store) (c : ConvId) (m : MessageCreate)
    (page limit page2 limit2 : Nat) (hl1 : 1 ≤ limit) (hl2 : 1 ≤ limit2) :
    (∃ p p2, get_conversation_messages st c page limit = Except.ok p ∧
      get_conversation_messages st c page2 limit2 = Except.ok p2 ∧
      p.total = st.messages.countP (fun r => r.conversation_id == c) ∧
      p.total = p2.total) ∧
    (send_message st m).1 = st ∧
    (send_message st m).2 = Except.error ApiError.internalError := by
  refine ⟨⟨⟨(st.messages.filter (fun r => r.conversation_id == c)).length, page, limit,
      ((messagesPartition st c).take limit).map msgRowToResponse⟩,
    ⟨(st.messages.filter (fun r => r.conversation_id == c)).length, page2, limit2,
      ((messagesPartition st c).take limit2).map msgRowToResponse⟩,
    ?_, ?_, ?_, rfl⟩, rfl, rfl⟩
  · exact get_conversation_messages_pos (by omega)
  · exact get_conversation_messages_pos (by omega)
  · rw [List.countP_eq_length_filter]

/-- Witness for C8 amended: the sample store, conversation 5, an attempted
send, two different page and limit pairs. -/
theorem C8_total_counts_stored_rows_witness :
    (∃ p p2, get_conversation_messages sampleStore 5 1 20 = Except.ok p ∧
      get_conversation_messages sampleStore 5 2 50 = Except.ok p2 ∧
      p.total = sampleStore.messages.countP (fun r => r.conversation_id == 5) ∧
      p.total = p2.total) ∧
    (send_message sampleStore ⟨"hello", 1, 2⟩).1 = sampleStore ∧
    (send_message sampleStore ⟨"hello", 1, 2⟩).2 = Except.error ApiError.internalError :=
  C8_total_counts_stored_rows sampleStore 5 ⟨"hello", 1, 2⟩ 1 20 2 50
    (by decide) (by decide)

/-- C9: `get_conversation` yields `notFound` exactly when no `conversations`
row with the requested id exists — an outcome distinct from the generic 500,
passed through unconverted — and when the row exists the conversation's
details are returned: id echoed, both reported users drawn from the
participant set and distinct from each other.  The two-element hypothesis on
the stored row is the data-model invariant of the spec (every conversation
has exactly two distinct participants). -/
theorem C9_notfound_iff_absent (st : Store) (cid : ConvId) :
    (get_conversation st cid = Except.error ApiError.notFound ↔
      ∀ q ∈ st.conversations, q.conversation_id ≠ cid) ∧
    (∀ q, st.conversations.find? (fun q2 => q2.conversation_id == cid) = some q →
      2 ≤ q.participant_ids.card →
      ∃ d, get_conversation st cid = Except.ok d ∧ d.id = cid ∧
        d.user1_id ∈ q.participant_ids ∧ d.user2_id ∈ q.participant_ids ∧
        d.user1_id ≠ d.user2_id) := by
  constructor
  · constructor
    · intro h
      rcases hf : st.conversations.find? (fun q2 => q2.conversation_id == cid) with _ | row
      · intro q hq
        have := List.find?_eq_none.mp hf q hq
        simpa using this
      · exfalso
        rcases hpa : participantsAsc row.participant_ids with _ | ⟨a, _ | ⟨b, rest⟩⟩ <;>
          simp [get_conversation, hf, hpa] at h
    · intro h
      have hf : st.conversations.find? (fun q2 => q2.conversation_id == cid) = none :=
        List.find?_eq_none.mpr (fun q hq => by simpa using h q hq)
      simp [get_conversation, hf]
  · intro q hq hcard
    have hlen : (participantsAsc q.participant_ids).length = q.participant_ids.card :=
      length_participantsAsc q.participant_ids
    rcases hpa : participantsAsc q.participant_ids with _ | ⟨a, _ | ⟨b, rest⟩⟩
    · rw [hpa] at hlen
      simp at hlen
      omega
    · rw [hpa] at hlen
      simp at hlen
      omega
    · have hnd := nodup_participantsAsc q.participant_ids
      rw [hpa] at hnd
      have hab : a ≠ b := by
        rcases List.nodup_cons.mp hnd with ⟨ha, _⟩
        intro hh
        exact ha (hh ▸ List.mem_cons_self b rest)
      refine ⟨⟨cid, a, b,
          (Option.map (fun r2 => r2.created_at) (messagesPartition st cid).head?).getD
            q.created_at,
          Option.map (fun r2 => r2.message_text) (messagesPartition st cid).head?⟩,
        by simp [get_conversation, hq, hpa], rfl, ?_, ?_, hab⟩
      · exact mem_participantsAsc.mp (by rw [hpa]; exact List.mem_cons_self _ _)
      · exact mem_participantsAsc.mp
          (by rw [hpa]; exact List.mem_cons_of_mem _ (List.mem_cons_self _ _))

/-- Witness for C9 on the sample store's present two-participant
conversation. -/
theorem C9_notfound_iff_absent_witness :
    (get_conversation sampleStore 5 = Except.error ApiError.notFound ↔
      ∀ q ∈ sampleStore.conversations, q.conversation_id ≠ 5) ∧
    (∀ q, sampleStore.conversations.find? (fun q2 => q2.conversation_id == 5) = some q →
      2 ≤ q.participant_ids.card →
      ∃ d, get_conversation sampleStore 5 = Except.ok d ∧ d.id = 5 ∧
        d.user1_id ∈ q.participant_ids ∧ d.user2_id ∈ q.participant_ids ∧
        d.user1_id ≠ d.user2_id) :=
  C9_notfound_iff_absent sampleStore 5

/-- C10 counterexample: the claim asserts the readers succeed for every page
and limit rather than failing with any error, but at limit = 0 both readers'
interpolated `LIMIT 0` is rejected by Cassandra and both calls fail with the
generic 500 even on ids with no stored rows. -/
theorem C10_limit_zero_counterexample :
    get_conversation_messages emptyStore 3 1 0 = Except.error ApiError.internalError ∧
    get_user_conversations emptyStore 4 1 0 = Except.error ApiError.internalError := by
  decide

/-- C10 amended: on a conversation or user with no stored rows, and for every
limit of at least 1, both paginated readers succeed with total 0 and an empty
item list, echoing the requested page and limit; at limit = 0 both fail with
the generic 500. -/
theorem C10_empty_readers_succeed (st : Store) (c : ConvId) (u : UserId) (page limit : Nat)
    (hlim : 1 ≤ limit)
    (hm : st.messages.filter (fun r => r.conversation_id == c) = [])
    (hu : st.user_conversations.filter (fun r => r.user_id == u) = []) :
    get_conversation_messages st c page limit = Except.ok ⟨0, page, limit, []⟩ ∧
    get_user_conversations st u page limit = Except.ok ⟨0, page, limit, []⟩ := by
  constructor
  · rw [get_conversation_messages_pos (by omega)]
    simp [messagesPartition, hm]
  · rw [get_user_conversations_pos (by omega)]
    simp [userPartition, hu, buildConvItems]

/-- Witness for C10 amended: conversation 6 and user 7 on the sample store
(no rows for either), page 1, limit 20. -/
theorem C10_empty_readers_succeed_witness :
    get_conversation_messages sampleStore 6 1 20 = Except.ok ⟨0, 1, 20, []⟩ ∧
    get_user_conversations sampleStore 7 1 20 = Except.ok ⟨0, 1, 20, []⟩ :=
  C10_empty_readers_succeed sampleStore 6 7 1 20 (by decide) (by decide) (by decide)
